import Mathlib

/-!
# Verification of the `ContentGenerator` client

Shallow embedding of `src/frontend/src/components/ContentGenerator.tsx`:
the React state hooks become an explicit `ComponentState` record, the
`generateContent` handler becomes a function from the state, the observed
network outcome and the two timestamps read by `Date.now()` to the new
state together with its externally observable effects, and the helper
handlers (`fetchSavedContents`, `loadFromHistory`, the download filename)
become plain functions.
-/

namespace ContentGenerator

/-- One row returned by `GET /api/content` (spec §3 `HistoryItem`). -/
structure HistoryItem where
  id : Nat
  topic : String
  content : String
  created_at : Nat
deriving DecidableEq, Repr

/-- The component's `useState` hooks, lines 20-26 of `ContentGenerator.tsx`.
`generationTime` is the float `(Date.now() - startTime) / 1000`; with
integer-millisecond timestamps it is an exact rational. -/
structure ComponentState where
  topic : String
  content : String
  loading : Bool
  error : String
  generationTime : ℚ
  savedContents : List HistoryItem
  showHistory : Bool
deriving DecidableEq, Repr

/-- Parsed JSON body of a `POST /api/generate-content` response.
`content` is a string per the API contract (spec §6); `message` is the
optional `message?` field, so an absent field and an empty string can be
told apart (the code's `data.message || …` treats both as falsy). -/
structure GenBody where
  status : String
  content : String
  message : Option String
deriving DecidableEq, Repr

/-- What the awaited `fetch` + `response.json()` of `generateContent`
produced: either some exception was thrown (network failure or JSON parse
failure, carrying the `Error` message the catch block reads), or an HTTP
response with a status code and a parsed body arrived. -/
inductive FetchOutcome where
  | netError (msg : String)
  | http (status : Nat) (body : GenBody)
deriving DecidableEq, Repr

/-- Parsed JSON body of a `GET /api/content` response. -/
structure HistBody where
  status : String
  data : List HistoryItem
deriving DecidableEq, Repr

/-- Outcome of the `fetch` + `json()` inside `fetchSavedContents`. -/
inductive HistOutcome where
  | netError (msg : String)
  | body (b : HistBody)
deriving DecidableEq, Repr

/-- Externally observable effects of one `generateContent` invocation:
`requestBody = some t` iff a POST was dispatched with body `{topic: t}`;
`refreshTriggered` iff `fetchSavedContents()` was called afterwards. -/
structure GenEffects where
  requestBody : Option String
  refreshTriggered : Bool
deriving DecidableEq, Repr

/-- `response.ok`: HTTP status in the 2xx range. -/
def httpOk (status : Nat) : Bool :=
  200 ≤ status && status < 300

/-- JavaScript `x || d` for an optional string `x`: both an absent field
and the empty string are falsy. -/
def jsOrElse (m : Option String) (d : String) : String :=
  match m with
  | some s => if s = "" then d else s
  | none => d

/-- The `generateContent` handler, lines 45-84.  `start` is the
`Date.now()` read at entry, `finish` the one read in the success branch.
Every path runs the `finally` block, so `loading` ends `false`. -/
def generateContent (s : ComponentState) (resp : FetchOutcome)
    (start finish : Nat) : ComponentState × GenEffects :=
  let s1 : ComponentState := { s with loading := true, error := "" }
  match resp with
  | .netError msg =>
      ({ s1 with error := msg, loading := false },
       { requestBody := some s.topic, refreshTriggered := false })
  | .http status body =>
      if httpOk status then
        if body.status = "success" then
          ({ s1 with content := body.content,
                     generationTime := ((finish : ℚ) - (start : ℚ)) / 1000,
                     loading := false },
           { requestBody := some s.topic, refreshTriggered := true })
        else
          ({ s1 with error := jsOrElse body.message "Unknown error occurred",
                     loading := false },
           { requestBody := some s.topic, refreshTriggered := false })
      else
        ({ s1 with error := "API request failed with status " ++ toString status,
                   loading := false },
         { requestBody := some s.topic, refreshTriggered := false })

/-- The `generate` operation as the user can invoke it: the button is
`disabled={loading || !topic}` (line 181) and the Enter-key handler runs
`generateContent` only when `!loading && topic` (lines 170-175).  A falsy
JavaScript string is exactly the empty string, so a guarded invocation is
a no-op iff `loading` is set or the topic is `""`. -/
def generate (s : ComponentState) (resp : FetchOutcome)
    (start finish : Nat) : ComponentState × GenEffects :=
  if s.loading || s.topic = "" then
    (s, { requestBody := none, refreshTriggered := false })
  else
    generateContent s resp start finish

/-- The `fetchSavedContents` handler, lines 29-39: on a parsed body with
`status === 'success'` it replaces `savedContents`; any other outcome
(thrown error, or a body with another status) only logs. -/
def fetchSavedContents (s : ComponentState) (resp : HistOutcome) :
    ComponentState :=
  match resp with
  | .netError _ => s
  | .body b => if b.status = "success" then { s with savedContents := b.data } else s

/-- The `loadFromHistory` handler, lines 119-124. -/
def loadFromHistory (s : ComponentState) (item : HistoryItem) :
    ComponentState :=
  { s with topic := item.topic, content := item.content, showHistory := false }

/-- The character class `\s` of a JavaScript regular expression:
whitespace, line terminators, NBSP and the Unicode space separators. -/
def jsIsWs (c : Char) : Bool :=
  let n := c.toNat
  n = 0x9 || n = 0xA || n = 0xB || n = 0xC || n = 0xD || n = 0x20 ||
  n = 0xA0 || n = 0x1680 || (0x2000 ≤ n && n ≤ 0x200A) ||
  n = 0x2028 || n = 0x2029 || n = 0x202F || n = 0x205F ||
  n = 0x3000 || n = 0xFEFF

/-- `s.replace(/\s+/g, '-')`, scanning left to right: `inRun` records
whether the previous character was `\s`.  A `\s` character opening a run
emits one hyphen; later characters of the same run emit nothing. -/
def replaceWsRunsAux (inRun : Bool) : List Char → List Char
  | [] => []
  | c :: cs =>
    if jsIsWs c then
      if inRun then replaceWsRunsAux true cs
      else '-' :: replaceWsRunsAux true cs
    else c :: replaceWsRunsAux false cs

/-- `s.replace(/\s+/g, '-')`: every maximal run of `\s` characters is
replaced by a single hyphen. -/
def replaceWsRuns (l : List Char) : List Char :=
  replaceWsRunsAux false l

/-- The download filename built by `downloadContent` (line 96):
`` `${topic.replace(/\s+/g, '-').toLowerCase()}.md` ``. -/
def downloadFilename (topic : String) : String :=
  String.mk ((replaceWsRuns topic.data).map Char.toLower) ++ ".md"

/-- Modelled from the spec (§4.3): the filename as the spec words it,
"derived from the topic by lowercasing and replacing whitespace runs with
a single hyphen, extension `.md`" — lowercase first, then replace. -/
def specFilename (topic : String) : String :=
  String.mk (replaceWsRuns (topic.data.map Char.toLower)) ++ ".md"

/-- `String.prototype.trim()`: strip leading and trailing `\s` characters. -/
def jsTrim (s : String) : String :=
  String.mk (((s.data.dropWhile jsIsWs).reverse.dropWhile jsIsWs).reverse)

/-! Concrete states and response bodies used by witnesses and
counterexamples. -/

/-- An idle component with a non-empty topic and some displayed content. -/
def exIdleState : ComponentState :=
  { topic := "How AI Helps", content := "old content", loading := false,
    error := "", generationTime := 0, savedContents := [], showHistory := false }

/-- A successful generation body, as in spec §8. -/
def genOkBody : GenBody :=
  { status := "success", content := "# Hi", message := none }

/-- A service-error body with message `"boom"`, as in spec §8. -/
def boomBody : GenBody :=
  { status := "error", content := "", message := some "boom" }

/-- A service-error body whose `message` field is present but empty. -/
def emptyMsgBody : GenBody :=
  { status := "error", content := "", message := some "" }

/-- The idle state with a whitespace-only topic. -/
def wsTopicState : ComponentState :=
  { exIdleState with topic := " " }

/-- The idle state with an empty topic. -/
def emptyTopicState : ComponentState :=
  { exIdleState with topic := "" }

/-- The idle state with an untrimmed topic. -/
def untrimmedState : ComponentState :=
  { exIdleState with topic := "  hi  " }

/-- The idle state while a request is in flight. -/
def loadingState : ComponentState :=
  { exIdleState with loading := true }

/-- A state holding one cached history item. -/
def cachedState : ComponentState :=
  { exIdleState with
      savedContents := [{ id := 1, topic := "t", content := "c", created_at := 0 }] }

end ContentGenerator

namespace ContentGenerator

/-- C1 counterexample: a whitespace-only topic `" "` is truthy in
JavaScript, so the guard `loading || !topic` does not block it — the
invocation dispatches a POST with body topic `" "` and changes the
displayed content, refuting the claim at this input. -/
theorem generate_whitespace_topic_dispatches :
    (generate wsTopicState (.http 200 genOkBody) 0 5).2.requestBody = some " " ∧
    (generate wsTopicState (.http 200 genOkBody) 0 5).1.content
      ≠ wsTopicState.content := by
  decide

/-- C1 (amended): for every empty topic string, `generate` performs no
network call and leaves the whole state — topic, content, error flag,
loading flag — unchanged.  (Whitespace-only topics are not blocked: they
dispatch, see the counterexample.) -/
theorem generate_empty_topic_noop (s : ComponentState) (resp : FetchOutcome)
    (start finish : Nat) (h : s.topic = "") :
    generate s resp start finish
      = (s, { requestBody := none, refreshTriggered := false }) := by
  simp [generate, h]

/-- Witness for C1: the empty-topic no-op at a concrete state. -/
theorem generate_empty_topic_noop_witness :
    generate emptyTopicState (.netError "down") 0 0
      = (emptyTopicState, { requestBody := none, refreshTriggered := false }) :=
  generate_empty_topic_noop emptyTopicState (.netError "down") 0 0 rfl

/-- C2: while `loading` is true, a `generate` invocation is a no-op that
issues no network call and changes nothing, so at most one generation
request is in flight at any time. -/
theorem generate_while_loading_noop (s : ComponentState) (resp : FetchOutcome)
    (start finish : Nat) (h : s.loading = true) :
    generate s resp start finish
      = (s, { requestBody := none, refreshTriggered := false }) := by
  simp [generate, h]

/-- Witness for C2 at a concrete loading state. -/
theorem generate_while_loading_noop_witness :
    generate loadingState (.netError "down") 0 0
      = (loadingState, { requestBody := none, refreshTriggered := false }) :=
  generate_while_loading_noop loadingState (.netError "down") 0 0 rfl

/-- C3: on an HTTP 2xx response whose body has status `"success"` and
content `c`, `generate` sets the displayed content to exactly `c`, sets
the elapsed generation time to `(finish - start) / 1000` seconds — a
non-negative number when the clock does not go backwards — leaves the
error cleared, and triggers a History Cache refresh. -/
theorem generate_success_updates_view (s : ComponentState) (status : Nat)
    (body : GenBody) (start finish : Nat)
    (hl : s.loading = false) (ht : s.topic ≠ "")
    (hok : httpOk status = true) (hst : body.status = "success")
    (hmono : start ≤ finish) :
    (generate s (.http status body) start finish).1.content = body.content ∧
    (generate s (.http status body) start finish).1.generationTime
      = ((finish : ℚ) - (start : ℚ)) / 1000 ∧
    0 ≤ (generate s (.http status body) start finish).1.generationTime ∧
    (generate s (.http status body) start finish).1.error = "" ∧
    (generate s (.http status body) start finish).2.refreshTriggered = true := by
  have h3 : (0 : ℚ) ≤ ((finish : ℚ) - (start : ℚ)) / 1000 := by
    have hc : (start : ℚ) ≤ (finish : ℚ) := by exact_mod_cast hmono
    exact div_nonneg (sub_nonneg.mpr hc) (by norm_num)
  refine ⟨?_, ?_, ?_, ?_, ?_⟩ <;>
    simp [generate, hl, ht, generateContent, hok, hst, h3]

/-- Witness for C3: the mocked success of spec §8 at HTTP 200,
start 0 ms, finish 5 ms. -/
theorem generate_success_updates_view_witness :
    (generate exIdleState (.http 200 genOkBody) 0 5).1.content
      = genOkBody.content ∧
    (generate exIdleState (.http 200 genOkBody) 0 5).1.generationTime
      = (((5 : Nat) : ℚ) - ((0 : Nat) : ℚ)) / 1000 ∧
    0 ≤ (generate exIdleState (.http 200 genOkBody) 0 5).1.generationTime ∧
    (generate exIdleState (.http 200 genOkBody) 0 5).1.error = "" ∧
    (generate exIdleState (.http 200 genOkBody) 0 5).2.refreshTriggered = true :=
  generate_success_updates_view exIdleState 200 genOkBody 0 5 rfl (by decide)
    rfl rfl (by decide)

/-- C4: on an HTTP non-2xx response, `generate` sets the displayed error
to the message carrying the HTTP status code and leaves the displayed
content unchanged from its value before the call. -/
theorem generate_http_error_sets_error (s : ComponentState) (status : Nat)
    (body : GenBody) (start finish : Nat)
    (hl : s.loading = false) (ht : s.topic ≠ "")
    (hbad : httpOk status = false) :
    (generate s (.http status body) start finish).1.error
      = "API request failed with status " ++ toString status ∧
    (generate s (.http status body) start finish).1.content = s.content := by
  refine ⟨?_, ?_⟩ <;> simp [generate, hl, ht, generateContent, hbad]

/-- Witness for C4: the mocked HTTP 500 of spec §8. -/
theorem generate_http_error_sets_error_witness :
    (generate exIdleState (.http 500 genOkBody) 0 5).1.error
      = "API request failed with status " ++ toString 500 ∧
    (generate exIdleState (.http 500 genOkBody) 0 5).1.content
      = exIdleState.content :=
  generate_http_error_sets_error exIdleState 500 genOkBody 0 5 rfl (by decide) rfl

/-- C5 counterexample: a 2xx body with status `"error"` and message `""`
displays the fallback `"Unknown error occurred"`, not the body's message
(`data.message || …` treats the empty string as falsy), refuting "the
displayed error equals exactly m" at `m = ""`. -/
theorem generate_empty_message_fallback :
    (generate exIdleState (.http 200 emptyMsgBody) 0 5).1.error
      = "Unknown error occurred" ∧
    emptyMsgBody.message = some "" ∧
    (generate exIdleState (.http 200 emptyMsgBody) 0 5).1.error ≠ "" := by
  decide

/-- C5 (amended): on an HTTP 2xx response whose body has status other
than `"success"` and a non-empty message `m`, `generate` sets the
displayed error to exactly `m` and leaves the displayed content
unchanged; for an absent or empty message the fallback
`"Unknown error occurred"` is shown instead. -/
theorem generate_service_error_sets_message (s : ComponentState)
    (status : Nat) (body : GenBody) (start finish : Nat) (m : String)
    (hl : s.loading = false) (ht : s.topic ≠ "")
    (hok : httpOk status = true) (hst : body.status ≠ "success")
    (hm : body.message = some m) (hne : m ≠ "") :
    (generate s (.http status body) start finish).1.error = m ∧
    (generate s (.http status body) start finish).1.content = s.content := by
  refine ⟨?_, ?_⟩ <;>
    simp [generate, hl, ht, generateContent, hok, hst, jsOrElse, hm, hne]

/-- Witness for C5: the mocked `{status:"error", message:"boom"}` of
spec §8 at HTTP 200. -/
theorem generate_service_error_sets_message_witness :
    (generate exIdleState (.http 200 boomBody) 0 5).1.error = "boom" ∧
    (generate exIdleState (.http 200 boomBody) 0 5).1.content
      = exIdleState.content :=
  generate_service_error_sets_message exIdleState 200 boomBody 0 5 "boom"
    rfl (by decide) rfl (by decide) rfl (by decide)

/-- C6: a History Cache refresh that fails — a thrown network or parse
error, or any body whose status is not `"success"` — leaves the whole
state unchanged: the previously cached items stay exactly as they were
and no error is surfaced. -/
theorem fetchSavedContents_failure_keeps_cache (s : ComponentState)
    (resp : HistOutcome)
    (h : ∀ b, resp = HistOutcome.body b → b.status ≠ "success") :
    fetchSavedContents s resp = s := by
  cases resp with
  | netError m => rfl
  | body b => simp [fetchSavedContents, h b rfl]

/-- Witness for C6: a network failure leaves a non-empty cache intact. -/
theorem fetchSavedContents_failure_keeps_cache_witness :
    fetchSavedContents cachedState (.netError "net down") = cachedState :=
  fetchSavedContents_failure_keeps_cache cachedState (.netError "net down")
    (fun _ hb => nomatch hb)

/-- C7 counterexample: with topic `"  hi  "` the dispatched POST body
carries the raw string `"  hi  "`, not its trim `"hi"` — the code sends
`JSON.stringify({ topic })` without trimming, refuting "the dispatched
body equals the trimmed topic". -/
theorem generate_dispatches_untrimmed :
    (generate untrimmedState (.http 200 genOkBody) 0 5).2.requestBody
      = some "  hi  " ∧
    jsTrim "  hi  " = "hi" ∧ ("  hi  " : String) ≠ "hi" := by
  decide

/-- C7 (amended): every dispatched generation request carries exactly the
raw current topic in its POST body, and that topic is non-empty; it is
not trimmed, so it may carry leading or trailing whitespace (and may even
be whitespace-only). -/
theorem generate_dispatch_raw_nonempty (s : ComponentState)
    (resp : FetchOutcome) (start finish : Nat) (t : String)
    (h : (generate s resp start finish).2.requestBody = some t) :
    t = s.topic ∧ s.topic ≠ "" := by
  by_cases hg : s.loading = true ∨ s.topic = ""
  · exfalso
    have hnone : (generate s resp start finish).2.requestBody = none := by
      rcases hg with h1 | h1 <;> simp [generate, h1]
    rw [hnone] at h
    exact Option.noConfusion h
  · push_neg at hg
    obtain ⟨hl, ht⟩ := hg
    have hl' : s.loading = false := Bool.eq_false_iff.mpr hl
    have hbody : (generate s resp start finish).2.requestBody = some s.topic := by
      cases resp with
      | netError m => simp [generate, hl', ht, generateContent]
      | http st b =>
        by_cases hok : httpOk st <;> by_cases hst : b.status = "success" <;>
          simp [generate, hl', ht, generateContent, hok, hst]
    rw [hbody] at h
    injection h with h'
    exact ⟨h'.symm, ht⟩

/-- Witness for C7: the concrete dispatch from the idle state. -/
theorem generate_dispatch_raw_nonempty_witness :
    "How AI Helps" = exIdleState.topic ∧ exIdleState.topic ≠ "" :=
  generate_dispatch_raw_nonempty exIdleState (.http 200 genOkBody) 0 5
    "How AI Helps" (by decide)

/-- Lowercasing an uppercase basic-latin letter adds 32 to its code. -/
theorem toNat_toLower_of_upper (c : Char) (h : 65 ≤ c.toNat ∧ c.toNat ≤ 90) :
    (Char.toLower c).toNat = c.toNat + 32 := by
  have hv : (c.toNat + 32).isValidChar := Or.inl (by omega)
  unfold Char.toLower
  rw [if_pos h]
  unfold Char.ofNat
  rw [dif_pos hv]
  rfl

/-- `Char.toLower` never moves a character into or out of the `\s`
class: uppercase letters map to lowercase letters, everything else is
fixed. -/
theorem jsIsWs_toLower (c : Char) : jsIsWs (Char.toLower c) = jsIsWs c := by
  by_cases h : 65 ≤ c.toNat ∧ c.toNat ≤ 90
  · have h1 : (Char.toLower c).toNat = c.toNat + 32 := toNat_toLower_of_upper c h
    have e1 : jsIsWs (Char.toLower c) = false := by
      simp [jsIsWs, h1]; omega
    have e2 : jsIsWs c = false := by
      simp [jsIsWs]; omega
    rw [e1, e2]
  · have hfix : Char.toLower c = c := by
      unfold Char.toLower
      rw [if_neg h]
    rw [hfix]

/-- Replacing whitespace runs commutes with `Char.toLower`. -/
theorem replaceWsRunsAux_map_toLower (l : List Char) :
    ∀ b, replaceWsRunsAux b (l.map Char.toLower)
      = (replaceWsRunsAux b l).map Char.toLower := by
  induction l with
  | nil => intro b; rfl
  | cons c cs ih =>
    intro b
    simp only [List.map_cons, replaceWsRunsAux, jsIsWs_toLower]
    by_cases h : jsIsWs c
    · rw [if_pos h, if_pos h]
      have hh : Char.toLower '-' = '-' := rfl
      cases b with
      | false =>
          simp only [if_neg (Bool.false_ne_true), List.map_cons, ih, hh]
      | true => simp [ih]
    · rw [if_neg h, if_neg h]
      simp [ih]

/-- C8: for every topic, the download filename equals the topic
lowercased with every maximal whitespace run replaced by a single hyphen,
followed by `".md"` (the code replaces first and lowercases second; the
two orders agree); in particular `"How AI Helps"` yields
`"how-ai-helps.md"`. -/
theorem downloadFilename_lowercase_hyphenate :
    (∀ topic : String, downloadFilename topic = specFilename topic) ∧
    downloadFilename "How AI Helps" = "how-ai-helps.md" := by
  constructor
  · intro t
    unfold downloadFilename specFilename replaceWsRuns
    rw [replaceWsRunsAux_map_toLower]
  · decide

/-- C9: every completed `generateContent` invocation — success, HTTP
error, service error or thrown exception — ends with the loading flag
false: the `finally` block always runs. -/
theorem generateContent_ends_not_loading (s : ComponentState)
    (resp : FetchOutcome) (start finish : Nat) :
    (generateContent s resp start finish).1.loading = false := by
  cases resp with
  | netError m => rfl
  | http st b =>
    by_cases hok : httpOk st <;> by_cases hst : b.status = "success" <;>
      simp [generateContent, hok, hst]

/-- C10: selecting a history item sets the topic and content and closes
the history panel, while the error flag, the elapsed generation time and
the cached history list are left unchanged — a previously displayed error
stays visible. -/
theorem loadFromHistory_frame (s : ComponentState) (item : HistoryItem) :
    (loadFromHistory s item).topic = item.topic ∧
    (loadFromHistory s item).content = item.content ∧
    (loadFromHistory s item).showHistory = false ∧
    (loadFromHistory s item).error = s.error ∧
    (loadFromHistory s item).generationTime = s.generationTime ∧
    (loadFromHistory s item).savedContents = s.savedContents :=
  ⟨rfl, rfl, rfl, rfl, rfl, rfl⟩

end ContentGenerator
